import Mathlib

/-!
Verification development for the `laiph` 3D/4D Game-of-Life engine.

The definitions below are a shallow embedding of the TypeScript/WGSL source:

* `getCell`, `countNeighbors`, `nextCellState`, `stepGrid3` embed the WGSL
  compute kernel inlined in `src/engine/GameOfLife3D.ts` (functions
  `getCell`, `countNeighbors` and `main`); the standalone shader
  `compute-3d.wgsl` is line-for-line the same algorithm.
* `getCell4`, `countNeighbors4`, `stepGrid4` embed `src/shaders/compute-4d.wgsl`.
* `Engine3` with `seed3`, `step3`, `getCells3`, `updateRules3` embeds the
  host-side class `GameOfLife3D`.
* `Engine4` with `reset4`, `step4`, `getState4`, `get3DSliceAt`,
  `setWSlice4` embeds the host-side class `GameOfLife4D`.

Machine integers are modelled as `Nat`/`Int`: WGSL `i32` `%` is truncated
remainder, embedded as `Int.tmod`; in every expression the kernels form, the
left operand is non-negative, so no `i32` overflow or sign subtlety is lost
for any realistic grid size.  GPU buffers are flat `List Nat` values; an
out-of-range read of a JS `Uint32Array` yields `undefined`, which stores as
`0`, embedded as `List.getD _ _ 0` (with an explicit guard for negative
indices).
-/

namespace Laiph

/-- Loop bounds of the WGSL `for (var d = -1; d <= 1; d++)` loops. -/
def loopVals : List Int := [-1, 0, 1]

/-- Embeds `getCell` from the 3D kernel (GameOfLife3D.ts, shader lines 92-99):
wraps each coordinate as `(c + size) % size` (WGSL `i32` `%`, i.e. truncated
remainder), flattens to `wx + wy*size + wz*size*size`, and reads the input
buffer. -/
def getCell (cellsIn : List Nat) (gridSize : Nat) (x y z : Int) : Nat :=
  let size : Int := (gridSize : Int)
  let wx := (x + size).tmod size
  let wy := (y + size).tmod size
  let wz := (z + size).tmod size
  cellsIn.getD (wx + wy * size + wz * size * size).toNat 0

/-- Embeds `countNeighbors` from the 3D kernel (shader lines 101-112): triple loop
over `dx, dy, dz ∈ {-1,0,1}`, skipping the all-zero offset (`continue`),
summing `getCell (x+dx) (y+dy) (z+dz)`. -/
def countNeighbors (cellsIn : List Nat) (gridSize : Nat) (x y z : Int) : Nat :=
  (loopVals.map (fun dx =>
    (loopVals.map (fun dy =>
      (loopVals.map (fun dz =>
        if dx = 0 ∧ dy = 0 ∧ dz = 0 then 0
        else getCell cellsIn gridSize (x + dx) (y + dy) (z + dz))).sum)).sum)).sum

/-- The rule block of `main` (3D shader lines 126-136; the 4D shader lines
79-93 contain the textually identical block): a live cell survives iff the
neighbor count is within the survival range, a non-live cell is born iff it
is within the birth range; otherwise the next state is `0`. -/
def nextCellState (currentState neighbors survivalMin survivalMax
    birthMin birthMax : Nat) : Nat :=
  if currentState = 1 then
    if survivalMin ≤ neighbors ∧ neighbors ≤ survivalMax then 1 else 0
  else
    if birthMin ≤ neighbors ∧ neighbors ≤ birthMax then 1 else 0

/-- One full dispatch of the 3D kernel.  The shader runs one work item per
in-bounds `(x,y,z)` (out-of-bounds items early-return), each writing
`nextCellState` at `index = x + y*size + z*size²`.  We enumerate the cells by
that linear index, recovering `(x,y,z)` by the inverse mixed-radix decode. -/
def stepGrid3 (cellsIn : List Nat) (gridSize survivalMin survivalMax
    birthMin birthMax : Nat) : List Nat :=
  (List.range (gridSize * gridSize * gridSize)).map fun index =>
    let x := index % gridSize
    let y := index / gridSize % gridSize
    let z := index / (gridSize * gridSize)
    nextCellState (cellsIn.getD index 0)
      (countNeighbors cellsIn gridSize (x : Int) (y : Int) (z : Int))
      survivalMin survivalMax birthMin birthMax

/-- Embeds `coordsToIndex` from `compute-4d.wgsl` (lines 17-22): row-major
mixed-radix flattening `x + y*sx + z*sx*sy + w*sx*sy*sz`. -/
def coordsToIndex4 (sx sy sz x y z w : Nat) : Nat :=
  x + y * sx + z * sx * sy + w * sx * sy * sz

/-- Embeds `getCell` from `compute-4d.wgsl` (lines 25-34): wraps each of the four
coordinates as `(c + size) % size` with the per-axis extent, then reads the
input buffer at the flattened index. -/
def getCell4 (inputGrid : List Nat) (sx sy sz sw : Nat) (x y z w : Int) : Nat :=
  let wrappedX := ((x + (sx : Int)).tmod (sx : Int)).toNat
  let wrappedY := ((y + (sy : Int)).tmod (sy : Int)).toNat
  let wrappedZ := ((z + (sz : Int)).tmod (sz : Int)).toNat
  let wrappedW := ((w + (sw : Int)).tmod (sw : Int)).toNat
  inputGrid.getD (coordsToIndex4 sx sy sz wrappedX wrappedY wrappedZ wrappedW) 0

/-- Embeds `countNeighbors` from `compute-4d.wgsl` (lines 37-57): quadruple loop
over `dx, dy, dz, dw ∈ {-1,0,1}`, skipping the all-zero offset, summing
`getCell (coords + offset)`. -/
def countNeighbors4 (inputGrid : List Nat) (sx sy sz sw : Nat)
    (x y z w : Int) : Nat :=
  (loopVals.map (fun dx =>
    (loopVals.map (fun dy =>
      (loopVals.map (fun dz =>
        (loopVals.map (fun dw =>
          if dx = 0 ∧ dy = 0 ∧ dz = 0 ∧ dw = 0 then 0
          else getCell4 inputGrid sx sy sz sw
            (x + dx) (y + dy) (z + dz) (w + dw))).sum)).sum)).sum)).sum

/-- One full dispatch of the 4D kernel (`main` in `compute-4d.wgsl`): every
in-bounds work item `(x,y,z)` iterates `w` over `[0, sw)` and writes
`nextCellState` at the flattened index, so each of the `sx*sy*sz*sw` cells is
computed exactly once.  We enumerate the cells by linear index with the
inverse mixed-radix decode. -/
def stepGrid4 (inputGrid : List Nat) (sx sy sz sw surviveMin surviveMax
    birthMin birthMax : Nat) : List Nat :=
  (List.range (sx * sy * sz * sw)).map fun index =>
    let x := index % sx
    let y := index / sx % sy
    let z := index / (sx * sy) % sz
    let w := index / (sx * sy * sz)
    nextCellState (inputGrid.getD index 0)
      (countNeighbors4 inputGrid sx sy sz sw (x : Int) (y : Int) (z : Int) (w : Int))
      surviveMin surviveMax birthMin birthMax

/-! ## Host-side 3D engine (`GameOfLife3D.ts`) -/

/-- Rule-parameter record of `GameOfLife3DConfig` (without the grid size). -/
structure Rules3 where
  survivalMin : Nat
  survivalMax : Nat
  birthMin : Nat
  birthMax : Nat
deriving DecidableEq

/-- Host state of class `GameOfLife3D`: the two storage buffers
`cellBuffers[0]`/`cellBuffers[1]`, the `currentBuffer` tag, the rule
parameters and the `generation` counter. -/
structure Engine3 where
  gridSize : Nat
  rules : Rules3
  buffer0 : List Nat
  buffer1 : List Nat
  currentBuffer : Nat
  generation : Nat
deriving DecidableEq

/-- Embeds `this.totalCells = config.gridSize ** 3`. -/
def Engine3.totalCells (e : Engine3) : Nat := e.gridSize ^ 3

/-- Contents of `cellBuffers[slot]`. -/
def readSlot (e : Engine3) (slot : Nat) : List Nat :=
  if slot = 0 then e.buffer0 else e.buffer1

/-- Overwrite `cellBuffers[slot]`. -/
def writeSlot (e : Engine3) (slot : Nat) (cells : List Nat) : Engine3 :=
  if slot = 0 then { e with buffer0 := cells } else { e with buffer1 := cells }

/-- Embeds `GameOfLife3D.seed` (lines 192-199): throws on a length mismatch
*before* the buffer write; otherwise writes `cells` into
`cellBuffers[currentBuffer]` and resets `generation` to 0.  The thrown
exception is embedded as `Except.error`. -/
def seed3 (e : Engine3) (cells : List Nat) : Except String Engine3 :=
  if cells.length ≠ e.totalCells then
    Except.error "Cell array size mismatch"
  else
    Except.ok { writeSlot e e.currentBuffer cells with generation := 0 }

/-- Object state after a `seed` call: a thrown exception leaves the engine
object untouched, a successful call commits the new state. -/
def seed3Run (e : Engine3) (cells : List Nat) : Engine3 :=
  match seed3 e cells with
  | Except.ok e2 => e2
  | Except.error _ => e

/-- Embeds `GameOfLife3D.step` (lines 209-231): dispatches the kernel with
`bindGroups[currentBuffer]` (which reads buffer `currentBuffer` and writes
the other buffer), then swaps `currentBuffer` and increments `generation`. -/
def step3 (e : Engine3) : Engine3 :=
  let input := readSlot e e.currentBuffer
  let output := stepGrid3 input e.gridSize e.rules.survivalMin
    e.rules.survivalMax e.rules.birthMin e.rules.birthMax
  { writeSlot e (1 - e.currentBuffer) output with
      currentBuffer := 1 - e.currentBuffer,
      generation := e.generation + 1 }

/-- Embeds `GameOfLife3D.getCells` (lines 233-239): blocking readback of
`cellBuffers[currentBuffer]`. -/
def getCells3 (e : Engine3) : List Nat := readSlot e e.currentBuffer

/-- Embeds `GameOfLife3D.getGeneration`. -/
def getGeneration3 (e : Engine3) : Nat := e.generation

/-- Embeds `GameOfLife3D.updateRules` (lines 249-260): overwrites the rule
parameters (and rewrites the params buffer); it touches neither cell buffer
nor the generation counter. -/
def updateRules3 (e : Engine3) (r : Rules3) : Engine3 := { e with rules := r }

/-! ## Host-side 4D engine (`GameOfLife4D.ts`) -/

/-- Host state of class `GameOfLife4D`: grid extents `gridSize[0..3]`, rule
parameters, the two storage buffers `bufferA`/`bufferB`, the
`currentBuffer : 'A' | 'B'` tag (`true` = `'A'`) and `currentWSlice`. -/
structure Engine4 where
  sx : Nat
  sy : Nat
  sz : Nat
  sw : Nat
  surviveMin : Nat
  surviveMax : Nat
  birthMin : Nat
  birthMax : Nat
  bufferA : List Nat
  bufferB : List Nat
  currentIsA : Bool
  currentWSlice : Nat
deriving DecidableEq

/-- Embeds `this.gridDataSize = gridSize[0]*gridSize[1]*gridSize[2]*gridSize[3]`. -/
def Engine4.gridDataSize (e : Engine4) : Nat := e.sx * e.sy * e.sz * e.sw

/-- Embeds `GameOfLife4D.reset` (lines 231-254) with an explicit initial state
(`init` with an `initialState` behaves identically on the buffers): writes
`initData` into `bufferA`, zero-fills `bufferB`, marks `'A'` current and
resets `currentWSlice` to 0.  No generation counter exists in the class. -/
def reset4 (e : Engine4) (initData : List Nat) : Engine4 :=
  { e with bufferA := initData,
           bufferB := List.replicate e.gridDataSize 0,
           currentIsA := true,
           currentWSlice := 0 }

/-- Embeds `GameOfLife4D.step` (lines 117-143): dispatches with `bindGroupA`
(read `bufferA`, write `bufferB`) when `'A'` is current, with `bindGroupB`
(read `bufferB`, write `bufferA`) otherwise, then swaps `currentBuffer`.
Nothing else in the state changes — the class keeps no generation counter. -/
def step4 (e : Engine4) : Engine4 :=
  if e.currentIsA then
    { e with
        bufferB := stepGrid4 e.bufferA e.sx e.sy e.sz e.sw
          e.surviveMin e.surviveMax e.birthMin e.birthMax,
        currentIsA := false }
  else
    { e with
        bufferA := stepGrid4 e.bufferB e.sx e.sy e.sz e.sw
          e.surviveMin e.surviveMax e.birthMin e.birthMax,
        currentIsA := true }

/-- Embeds `GameOfLife4D.getState` (lines 145-151): reads back
`currentBuffer === 'A' ? bufferB : bufferA` — the ping-pong partner of the
buffer the `currentBuffer` tag names. -/
def getState4 (e : Engine4) : List Nat :=
  if e.currentIsA then e.bufferB else e.bufferA

/-- A JS `Uint32Array` read at index `i`: in range it yields the element;
out of range it yields `undefined`, which stores into a `Uint32Array` slot
as `0`. -/
def readU32 (a : List Nat) (i : Int) : Nat :=
  if 0 ≤ i then a.getD i.toNat 0 else 0

/-- Embeds `GameOfLife4D.get3DSlice` (lines 156-178) with an explicit `wSlice`
argument: reads the full state, then fills `slice[x + y*sx + z*sx*sy]` with
`fullState[x + y*sx + z*sx*sy + w*sx*sy*sz]` for every in-bounds `(x,y,z)`.
The explicit `w` is used as passed — the method performs no clamping. -/
def get3DSliceAt (e : Engine4) (w : Int) : List Nat :=
  let fullState := getState4 e
  (List.range (e.sx * e.sy * e.sz)).map fun index3D =>
    let x := index3D % e.sx
    let y := index3D / e.sx % e.sy
    let z := index3D / (e.sx * e.sy)
    readU32 fullState
      ((x : Int) + (y : Int) * (e.sx : Int) + (z : Int) * ((e.sx : Int) * (e.sy : Int))
        + w * ((e.sx : Int) * (e.sy : Int) * (e.sz : Int)))

/-- Embeds `GameOfLife4D.get3DSlice()` without an argument: uses the stored
`currentWSlice`. -/
def get3DSliceStored (e : Engine4) : List Nat :=
  get3DSliceAt e (e.currentWSlice : Int)

/-- Embeds `GameOfLife4D.setWSlice` (lines 196-198):
`currentWSlice = Math.max(0, Math.min(w, gridSize[3] - 1))`. -/
def setWSlice4 (e : Engine4) (w : Int) : Engine4 :=
  { e with currentWSlice := (max 0 (min w ((e.sw : Int) - 1))).toNat }

/-- Embeds `GameOfLife4D.getWSlice`. -/
def getWSlice4 (e : Engine4) : Nat := e.currentWSlice

/-! ## Spec-side definitions (§4.3, neighbor enumeration)

The following definitions follow the specification's words, for comparison
against the kernels above: the set of `3^D - 1` offset vectors in
`{-1,0,1}^D` minus the all-zero vector, the per-axis toroidal wrap
`(coord + offset + size) mod size` (mathematical modulus), and the neighbor
sum over the input buffer. -/

/-- All offset vectors of `{-1,0,1}^3` except `(0,0,0)`. -/
def neighborOffsets3 : List (Int × Int × Int) :=
  (loopVals.flatMap fun dx => loopVals.flatMap fun dy => loopVals.map fun dz =>
    (dx, dy, dz)).filter fun o => o ≠ (0, 0, 0)

/-- All offset vectors of `{-1,0,1}^4` except `(0,0,0,0)`. -/
def neighborOffsets4 : List (Int × Int × Int × Int) :=
  (loopVals.flatMap fun dx => loopVals.flatMap fun dy => loopVals.flatMap fun dz =>
    loopVals.map fun dw => (dx, dy, dz, dw)).filter fun o => o ≠ (0, 0, 0, 0)

/-- Spec wrap of one coordinate: `(c + size) mod size` with the mathematical
(always non-negative) modulus. -/
def specWrap (size : Nat) (c : Int) : Nat := ((c + size) % size).toNat

/-- Spec-side neighbor sum, D = 3: over all offsets, the state of the input
buffer at the per-axis-wrapped coordinate, flattened row-major. -/
def specNeighborSum3 (cells : List Nat) (size : Nat) (x y z : Int) : Nat :=
  (neighborOffsets3.map fun o =>
    cells.getD (specWrap size (x + o.1) + specWrap size (y + o.2.1) * size
      + specWrap size (z + o.2.2) * size * size) 0).sum

/-- Spec-side neighbor sum, D = 4 (hypercubic per-axis extent `size`). -/
def specNeighborSum4 (cells : List Nat) (size : Nat) (x y z w : Int) : Nat :=
  (neighborOffsets4.map fun o =>
    cells.getD (specWrap size (x + o.1) + specWrap size (y + o.2.1) * size
      + specWrap size (z + o.2.2.1) * size * size
      + specWrap size (w + o.2.2.2) * size * size * size) 0).sum

/-! ## Helper lemmas -/

theorem getD_map_range (f : Nat → Nat) (n i : Nat) (h : i < n) :
    ((List.range n).map f).getD i 0 = f i := by
  rw [List.getD_eq_getElem?_getD, List.getElem?_map, List.getElem?_range h]
  rfl

theorem length_map_range (f : Nat → Nat) (n : Nat) :
    ((List.range n).map f).length = n := by
  simp

theorem unitSplit (a b q : Nat) (h : a < b) :
    (a + b * q) % b = a ∧ (a + b * q) / b = q := by
  have hb : 0 < b := Nat.lt_of_le_of_lt (Nat.zero_le a) h
  refine ⟨?_, ?_⟩
  · rw [Nat.add_mul_mod_self_left, Nat.mod_eq_of_lt h]
  · rw [Nat.add_mul_div_left _ _ hb, Nat.div_eq_of_lt h, Nat.zero_add]

theorem radixBound (a b q c : Nat) (ha : a < b) (hq : q < c) :
    a + b * q < b * c := by
  have h1 : a + b * q < b + b * q := Nat.add_lt_add_right ha (b * q)
  have h2 : b + b * q = b * (1 + q) := by ring
  have h3 : b * (1 + q) ≤ b * c := Nat.mul_le_mul_left b (by omega)
  omega

/-- Mixed-radix decode of `x + y*sx + z*(sx*sy)` (general extents). -/
theorem decode3g (sx sy sz x y z : Nat) (hx : x < sx) (hy : y < sy) (hz : z < sz) :
    (x + y * sx + z * (sx * sy)) % sx = x ∧
    (x + y * sx + z * (sx * sy)) / sx % sy = y ∧
    (x + y * sx + z * (sx * sy)) / (sx * sy) = z ∧
    x + y * sx + z * (sx * sy) < sx * sy * sz := by
  have hE : x + y * sx + z * (sx * sy) = x + sx * (y + sy * z) := by ring
  have hyz : y + sy * z < sy * sz := radixBound y sy z sz hy hz
  obtain ⟨m1, d1⟩ := unitSplit x sx (y + sy * z) hx
  obtain ⟨m2, d2⟩ := unitSplit y sy z hy
  refine ⟨?_, ?_, ?_, ?_⟩
  · rw [hE, m1]
  · rw [hE, d1, m2]
  · rw [← Nat.div_div_eq_div_mul, hE, d1, d2]
  · have := radixBound x sx (y + sy * z) (sy * sz) hx hyz
    calc x + y * sx + z * (sx * sy) = x + sx * (y + sy * z) := hE
      _ < sx * (sy * sz) := this
      _ = sx * sy * sz := by ring

/-- Mixed-radix decode of `x + y*sx + z*(sx*sy) + w*(sx*sy*sz)`. -/
theorem decode4g (sx sy sz sw x y z w : Nat) (hx : x < sx) (hy : y < sy)
    (hz : z < sz) (hw : w < sw) :
    (x + y * sx + z * (sx * sy) + w * (sx * sy * sz)) % sx = x ∧
    (x + y * sx + z * (sx * sy) + w * (sx * sy * sz)) / sx % sy = y ∧
    (x + y * sx + z * (sx * sy) + w * (sx * sy * sz)) / (sx * sy) % sz = z ∧
    (x + y * sx + z * (sx * sy) + w * (sx * sy * sz)) / (sx * sy * sz) = w ∧
    x + y * sx + z * (sx * sy) + w * (sx * sy * sz) < sx * sy * sz * sw := by
  have hE : x + y * sx + z * (sx * sy) + w * (sx * sy * sz)
      = x + sx * (y + sy * (z + sz * w)) := by ring
  have hzw : z + sz * w < sz * sw := radixBound z sz w sw hz hw
  have hyzw : y + sy * (z + sz * w) < sy * (sz * sw) := radixBound y sy _ _ hy hzw
  obtain ⟨m1, d1⟩ := unitSplit x sx (y + sy * (z + sz * w)) hx
  obtain ⟨m2, d2⟩ := unitSplit y sy (z + sz * w) hy
  obtain ⟨m3, d3⟩ := unitSplit z sz w hz
  refine ⟨?_, ?_, ?_, ?_, ?_⟩
  · rw [hE, m1]
  · rw [hE, d1, m2]
  · rw [← Nat.div_div_eq_div_mul, hE, d1, d2, m3]
  · rw [← Nat.div_div_eq_div_mul, ← Nat.div_div_eq_div_mul, hE, d1, d2, d3]
  · have := radixBound x sx (y + sy * (z + sz * w)) (sy * (sz * sw)) hx hyzw
    calc x + y * sx + z * (sx * sy) + w * (sx * sy * sz)
        = x + sx * (y + sy * (z + sz * w)) := hE
      _ < sx * (sy * (sz * sw)) := this
      _ = sx * sy * sz * sw := by ring

theorem getCell_wrap (cells : List Nat) (s : Nat) (hs : 0 < s) (cx cy cz : Int)
    (hx : 0 ≤ cx + s) (hy : 0 ≤ cy + s) (hz : 0 ≤ cz + s) :
    getCell cells s cx cy cz =
      cells.getD (specWrap s cx + specWrap s cy * s + specWrap s cz * s * s) 0 := by
  have hsI : (0 : Int) < s := by exact_mod_cast hs
  have hsle : (0 : Int) ≤ s := le_of_lt hsI
  simp only [getCell, specWrap]
  rw [Int.tmod_eq_emod hx hsle, Int.tmod_eq_emod hy hsle, Int.tmod_eq_emod hz hsle]
  have hxm : 0 ≤ (cx + s) % s := Int.emod_nonneg _ (ne_of_gt hsI)
  have hym : 0 ≤ (cy + s) % s := Int.emod_nonneg _ (ne_of_gt hsI)
  have hzm : 0 ≤ (cz + s) % s := Int.emod_nonneg _ (ne_of_gt hsI)
  obtain ⟨a, ha⟩ : ∃ a : Nat, (cx + s) % s = (a : Int) := ⟨_, (Int.toNat_of_nonneg hxm).symm⟩
  obtain ⟨b, hb⟩ : ∃ b : Nat, (cy + s) % s = (b : Int) := ⟨_, (Int.toNat_of_nonneg hym).symm⟩
  obtain ⟨c, hc⟩ : ∃ c : Nat, (cz + s) % s = (c : Int) := ⟨_, (Int.toNat_of_nonneg hzm).symm⟩
  rw [ha, hb, hc]
  have h2 : ((a : Int) + (b : Int) * (s : Int) + (c : Int) * (s : Int) * (s : Int))
      = ((a + b * s + c * s * s : Nat) : Int) := by push_cast; ring
  rw [h2, Int.toNat_natCast]
  simp

set_option maxRecDepth 4000 in
theorem getCell4_wrap (cells : List Nat) (s : Nat) (hs : 0 < s) (cx cy cz cw : Int)
    (hx : 0 ≤ cx + s) (hy : 0 ≤ cy + s) (hz : 0 ≤ cz + s) (hw : 0 ≤ cw + s) :
    getCell4 cells s s s s cx cy cz cw =
      cells.getD (specWrap s cx + specWrap s cy * s + specWrap s cz * s * s
        + specWrap s cw * s * s * s) 0 := by
  have hsI : (0 : Int) < s := by exact_mod_cast hs
  have hsle : (0 : Int) ≤ s := le_of_lt hsI
  simp only [getCell4, specWrap, coordsToIndex4]
  rw [Int.tmod_eq_emod hx hsle, Int.tmod_eq_emod hy hsle, Int.tmod_eq_emod hz hsle,
    Int.tmod_eq_emod hw hsle]

theorem countNeighborsEqOffsets (cells : List Nat) (s : Nat) (x y z : Int) :
    countNeighbors cells s x y z =
      (neighborOffsets3.map fun o =>
        getCell cells s (x + o.1) (y + o.2.1) (z + o.2.2)).sum := by
  simp only [countNeighbors, neighborOffsets3, loopVals, List.flatMap, List.map_cons,
    List.map_nil, List.sum_cons, List.sum_nil, List.filter, List.flatten]
  norm_num
  omega

set_option maxRecDepth 10000 in
theorem countNeighbors4EqOffsets (cells : List Nat) (sx sy sz sw : Nat)
    (x y z w : Int) :
    countNeighbors4 cells sx sy sz sw x y z w =
      (neighborOffsets4.map fun o =>
        getCell4 cells sx sy sz sw (x + o.1) (y + o.2.1) (z + o.2.2.1) (w + o.2.2.2)).sum := by
  simp only [countNeighbors4, neighborOffsets4, loopVals, List.flatMap, List.map_cons,
    List.map_nil, List.sum_cons, List.sum_nil, List.filter, List.flatten]
  norm_num
  omega

theorem countNeighborsEqSpec (cells : List Nat) (s : Nat) (hs : 0 < s)
    (x y z : Nat) :
    countNeighbors cells s (x : Int) (y : Int) (z : Int) =
      specNeighborSum3 cells s (x : Int) (y : Int) (z : Int) := by
  rw [countNeighborsEqOffsets, specNeighborSum3]
  refine congrArg List.sum (List.map_congr_left ?_)
  intro o ho
  have hb : ∀ p ∈ neighborOffsets3, -1 ≤ p.1 ∧ -1 ≤ p.2.1 ∧ -1 ≤ p.2.2 := by decide
  obtain ⟨h1, h2, h3⟩ := hb o ho
  exact getCell_wrap cells s hs _ _ _ (by omega) (by omega) (by omega)

set_option maxRecDepth 4000 in
theorem countNeighbors4EqSpec (cells : List Nat) (s : Nat) (hs : 0 < s)
    (x y z w : Nat) :
    countNeighbors4 cells s s s s (x : Int) (y : Int) (z : Int) (w : Int) =
      specNeighborSum4 cells s (x : Int) (y : Int) (z : Int) (w : Int) := by
  rw [countNeighbors4EqOffsets, specNeighborSum4]
  refine congrArg List.sum (List.map_congr_left ?_)
  intro o ho
  have hb : ∀ p ∈ neighborOffsets4, -1 ≤ p.1 ∧ -1 ≤ p.2.1 ∧ -1 ≤ p.2.2.1 ∧ -1 ≤ p.2.2.2 := by
    decide
  obtain ⟨h1, h2, h3, h4⟩ := hb o ho
  exact getCell4_wrap cells s hs _ _ _ _ (by omega) (by omega) (by omega) (by omega)

/-- The 3D kernel's output at the cell `(x,y,z)` (linear index
`x + y*s + z*s²`): `nextCellState` of that cell's input state and its
neighbor count. -/
theorem stepGrid3At (cells : List Nat) (s a b c d x y z : Nat)
    (hx : x < s) (hy : y < s) (hz : z < s) :
    (stepGrid3 cells s a b c d).getD (x + y * s + z * (s * s)) 0 =
      nextCellState (cells.getD (x + y * s + z * (s * s)) 0)
        (countNeighbors cells s (x : Int) (y : Int) (z : Int)) a b c d := by
  obtain ⟨m1, m2, m3, hlt⟩ := decode3g s s s x y z hx hy hz
  rw [stepGrid3, getD_map_range _ _ _ hlt]
  simp only [m1, m2, m3]

/-- The 4D kernel's output at the cell `(x,y,z,w)`. -/
theorem stepGrid4At (cells : List Nat) (sx sy sz sw a b c d x y z w : Nat)
    (hx : x < sx) (hy : y < sy) (hz : z < sz) (hw : w < sw) :
    (stepGrid4 cells sx sy sz sw a b c d).getD
        (x + y * sx + z * (sx * sy) + w * (sx * sy * sz)) 0 =
      nextCellState (cells.getD (x + y * sx + z * (sx * sy) + w * (sx * sy * sz)) 0)
        (countNeighbors4 cells sx sy sz sw (x : Int) (y : Int) (z : Int) (w : Int))
        a b c d := by
  obtain ⟨m1, m2, m3, m4, hlt⟩ := decode4g sx sy sz sw x y z w hx hy hz hw
  rw [stepGrid4, getD_map_range _ _ _ hlt]
  simp only [m1, m2, m3, m4]

/-- Case analysis of the shared rule block. -/
theorem nextRule (st n a b c d : Nat) :
    (st = 1 → (nextCellState st n a b c d = 1 ↔ a ≤ n ∧ n ≤ b)) ∧
    (st = 0 → (nextCellState st n a b c d = 1 ↔ c ≤ n ∧ n ≤ d)) ∧
    (nextCellState st n a b c d = 0 ∨ nextCellState st n a b c d = 1) := by
  unfold nextCellState
  refine ⟨?_, ?_, ?_⟩ <;> split <;> simp_all <;> omega

theorem getD_le_one (l : List Nat) (h : ∀ v ∈ l, v ≤ 1) (i : Nat) :
    l.getD i 0 ≤ 1 := by
  rw [List.getD_eq_getElem?_getD]
  cases hq : l[i]? with
  | none => simp
  | some v =>
    have hm : v ∈ l := List.getElem?_mem hq
    simpa using h v hm

theorem getCell_le_one (cells : List Nat) (h : ∀ v ∈ cells, v ≤ 1)
    (s : Nat) (x y z : Int) : getCell cells s x y z ≤ 1 := by
  simp only [getCell]
  exact getD_le_one cells h _

theorem getCell4_le_one (cells : List Nat) (h : ∀ v ∈ cells, v ≤ 1)
    (sx sy sz sw : Nat) (x y z w : Int) : getCell4 cells sx sy sz sw x y z w ≤ 1 := by
  simp only [getCell4]
  exact getD_le_one cells h _

theorem countNeighborsLe (cells : List Nat) (h : ∀ v ∈ cells, v ≤ 1)
    (s : Nat) (x y z : Int) : countNeighbors cells s x y z ≤ 26 := by
  rw [countNeighborsEqOffsets]
  have hb := List.sum_le_card_nsmul
    (neighborOffsets3.map fun o => getCell cells s (x + o.1) (y + o.2.1) (z + o.2.2)) 1 ?_
  · simpa using hb
  · intro t ht
    obtain ⟨o, ho, rfl⟩ := List.mem_map.mp ht
    exact getCell_le_one cells h s _ _ _

theorem countNeighbors4Le (cells : List Nat) (h : ∀ v ∈ cells, v ≤ 1)
    (sx sy sz sw : Nat) (x y z w : Int) :
    countNeighbors4 cells sx sy sz sw x y z w ≤ 80 := by
  rw [countNeighbors4EqOffsets]
  have hb := List.sum_le_card_nsmul
    (neighborOffsets4.map fun o =>
      getCell4 cells sx sy sz sw (x + o.1) (y + o.2.1) (z + o.2.2.1) (w + o.2.2.2)) 1 ?_
  · simpa using hb
  · intro t ht
    obtain ⟨o, ho, rfl⟩ := List.mem_map.mp ht
    exact getCell4_le_one cells h sx sy sz sw _ _ _ _

theorem stepGrid3Binary (cells : List Nat) (s a b c d : Nat) :
    ∀ v ∈ stepGrid3 cells s a b c d, v = 0 ∨ v = 1 := by
  intro v hv
  rw [stepGrid3] at hv
  obtain ⟨i, _, rfl⟩ := List.mem_map.mp hv
  exact (nextRule _ _ a b c d).2.2

theorem stepGrid4Binary (cells : List Nat) (sx sy sz sw a b c d : Nat) :
    ∀ v ∈ stepGrid4 cells sx sy sz sw a b c d, v = 0 ∨ v = 1 := by
  intro v hv
  rw [stepGrid4] at hv
  obtain ⟨i, _, rfl⟩ := List.mem_map.mp hv
  exact (nextRule _ _ a b c d).2.2

theorem getD_zero (l : List Nat) (h : ∀ v ∈ l, v = 0) (i : Nat) :
    l.getD i 0 = 0 := by
  rw [List.getD_eq_getElem?_getD]
  cases hq : l[i]? with
  | none => simp
  | some v => simpa using h v (List.getElem?_mem hq)

theorem countNeighborsZero (cells : List Nat) (h : ∀ v ∈ cells, v = 0)
    (s : Nat) (x y z : Int) : countNeighbors cells s x y z = 0 := by
  rw [countNeighborsEqOffsets]
  apply List.sum_eq_zero
  intro t ht
  obtain ⟨o, ho, rfl⟩ := List.mem_map.mp ht
  simp only [getCell]
  exact getD_zero cells h _

theorem countNeighbors4Zero (cells : List Nat) (h : ∀ v ∈ cells, v = 0)
    (sx sy sz sw : Nat) (x y z w : Int) :
    countNeighbors4 cells sx sy sz sw x y z w = 0 := by
  rw [countNeighbors4EqOffsets]
  apply List.sum_eq_zero
  intro t ht
  obtain ⟨o, ho, rfl⟩ := List.mem_map.mp ht
  simp only [getCell4]
  exact getD_zero cells h _

theorem stepGrid3Zero (cells : List Nat) (h : ∀ v ∈ cells, v = 0)
    (s a b c d : Nat) (hc : 0 < c) : ∀ v ∈ stepGrid3 cells s a b c d, v = 0 := by
  intro v hv
  rw [stepGrid3] at hv
  obtain ⟨i, _, rfl⟩ := List.mem_map.mp hv
  simp only [nextCellState, getD_zero cells h, countNeighborsZero cells h]
  split <;> first | omega | (split <;> omega)

theorem stepGrid4Zero (cells : List Nat) (h : ∀ v ∈ cells, v = 0)
    (sx sy sz sw a b c d : Nat) (hc : 0 < c) :
    ∀ v ∈ stepGrid4 cells sx sy sz sw a b c d, v = 0 := by
  intro v hv
  rw [stepGrid4] at hv
  obtain ⟨i, _, rfl⟩ := List.mem_map.mp hv
  simp only [nextCellState, getD_zero cells h, countNeighbors4Zero cells h]
  split <;> first | omega | (split <;> omega)

theorem step3Fields (e : Engine3) :
    (step3 e).rules = e.rules ∧ (step3 e).gridSize = e.gridSize := by
  unfold step3 writeSlot
  split <;> exact ⟨rfl, rfl⟩

/-- After a `step`, the readable state is the kernel's output on the
previous state: the bind group for the pre-step `currentBuffer` reads that
buffer and writes the other one, which the swap then marks current. -/
theorem getCells3Step (e : Engine3) :
    getCells3 (step3 e) = stepGrid3 (getCells3 e) e.gridSize e.rules.survivalMin
      e.rules.survivalMax e.rules.birthMin e.rules.birthMax := by
  unfold getCells3 step3 readSlot writeSlot
  by_cases h : e.currentBuffer = 0
  · simp [h]
  · have h1 : 1 - e.currentBuffer = 0 := by omega
    simp [h, h1]

theorem step3IterZero (k : Nat) : ∀ e : Engine3, 0 < e.rules.birthMin →
    (∀ v ∈ getCells3 e, v = 0) → ∀ v ∈ getCells3 (step3^[k] e), v = 0 := by
  induction k with
  | zero => intro e _ h; simpa using h
  | succ n ih =>
    intro e hb h
    rw [Function.iterate_succ_apply]
    refine ih (step3 e) ?_ ?_
    · rw [(step3Fields e).1]; exact hb
    · rw [getCells3Step e]
      exact stepGrid3Zero (getCells3 e) h e.gridSize _ _ _ _ hb

theorem step4Fields (f : Engine4) :
    (step4 f).surviveMin = f.surviveMin ∧ (step4 f).surviveMax = f.surviveMax ∧
    (step4 f).birthMin = f.birthMin ∧ (step4 f).birthMax = f.birthMax := by
  unfold step4
  split <;> exact ⟨rfl, rfl, rfl, rfl⟩

theorem step4IterZero (k : Nat) : ∀ f : Engine4, 0 < f.birthMin →
    (∀ v ∈ f.bufferA, v = 0) → (∀ v ∈ f.bufferB, v = 0) →
    (∀ v ∈ (step4^[k] f).bufferA, v = 0) ∧ (∀ v ∈ (step4^[k] f).bufferB, v = 0) := by
  induction k with
  | zero => intro f _ hA hB; exact ⟨hA, hB⟩
  | succ n ih =>
    intro f hb hA hB
    rw [Function.iterate_succ_apply]
    refine ih (step4 f) ?_ ?_ ?_
    · rw [(step4Fields f).2.2.1]; exact hb
    · unfold step4
      split
      · exact hA
      · exact stepGrid4Zero f.bufferB hB _ _ _ _ _ _ _ _ hb
    · unfold step4
      split
      · exact stepGrid4Zero f.bufferA hA _ _ _ _ _ _ _ _ hb
      · exact hB

/-- A 1³ engine holding an all-dead lattice. -/
def deadEngine3 : Engine3 :=
  { gridSize := 1, rules := ⟨2, 3, 3, 3⟩, buffer0 := [0], buffer1 := [0],
    currentBuffer := 0, generation := 0 }

/-- A 1⁴ engine holding an all-dead lattice. -/
def deadEngine4 : Engine4 :=
  { sx := 1, sy := 1, sz := 1, sw := 1, surviveMin := 7, surviveMax := 10,
    birthMin := 6, birthMax := 9, bufferA := [0], bufferB := [0],
    currentIsA := true, currentWSlice := 0 }

/-! ## Claim theorems -/

/-- C1: for every cell, both kernels compute the next state from the cell's
current state and its neighbor sum: a live cell (state 1) stays alive iff
`survivalMin ≤ neighborSum ≤ survivalMax`; a dead cell (state 0) becomes
alive iff `birthMin ≤ neighborSum ≤ birthMax`; in every case the next state
is `0` or `1` (so "otherwise dead"). -/
theorem C1_kernel_rule (cells cells4 : List Nat) (s sx sy sz sw a b c d
    x y z p q r u : Nat)
    (hx : x < s) (hy : y < s) (hz : z < s)
    (hp : p < sx) (hq : q < sy) (hr : r < sz) (hu : u < sw) :
    ((cells.getD (x + y * s + z * (s * s)) 0 = 1 →
        ((stepGrid3 cells s a b c d).getD (x + y * s + z * (s * s)) 0 = 1 ↔
          a ≤ countNeighbors cells s (x : Int) (y : Int) (z : Int) ∧
            countNeighbors cells s (x : Int) (y : Int) (z : Int) ≤ b)) ∧
      (cells.getD (x + y * s + z * (s * s)) 0 = 0 →
        ((stepGrid3 cells s a b c d).getD (x + y * s + z * (s * s)) 0 = 1 ↔
          c ≤ countNeighbors cells s (x : Int) (y : Int) (z : Int) ∧
            countNeighbors cells s (x : Int) (y : Int) (z : Int) ≤ d)) ∧
      ((stepGrid3 cells s a b c d).getD (x + y * s + z * (s * s)) 0 = 0 ∨
        (stepGrid3 cells s a b c d).getD (x + y * s + z * (s * s)) 0 = 1)) ∧
    ((cells4.getD (p + q * sx + r * (sx * sy) + u * (sx * sy * sz)) 0 = 1 →
        ((stepGrid4 cells4 sx sy sz sw a b c d).getD
            (p + q * sx + r * (sx * sy) + u * (sx * sy * sz)) 0 = 1 ↔
          a ≤ countNeighbors4 cells4 sx sy sz sw (p : Int) (q : Int) (r : Int) (u : Int) ∧
            countNeighbors4 cells4 sx sy sz sw (p : Int) (q : Int) (r : Int) (u : Int) ≤ b)) ∧
      (cells4.getD (p + q * sx + r * (sx * sy) + u * (sx * sy * sz)) 0 = 0 →
        ((stepGrid4 cells4 sx sy sz sw a b c d).getD
            (p + q * sx + r * (sx * sy) + u * (sx * sy * sz)) 0 = 1 ↔
          c ≤ countNeighbors4 cells4 sx sy sz sw (p : Int) (q : Int) (r : Int) (u : Int) ∧
            countNeighbors4 cells4 sx sy sz sw (p : Int) (q : Int) (r : Int) (u : Int) ≤ d)) ∧
      ((stepGrid4 cells4 sx sy sz sw a b c d).getD
          (p + q * sx + r * (sx * sy) + u * (sx * sy * sz)) 0 = 0 ∨
        (stepGrid4 cells4 sx sy sz sw a b c d).getD
          (p + q * sx + r * (sx * sy) + u * (sx * sy * sz)) 0 = 1)) := by
  rw [stepGrid3At cells s a b c d x y z hx hy hz,
    stepGrid4At cells4 sx sy sz sw a b c d p q r u hp hq hr hu]
  exact ⟨nextRule _ _ a b c d, nextRule _ _ a b c d⟩

/-- Witness for C1: the lone cell of a 1³ grid is alive and sees neighbor
sum 26; with survival range `[26,26]` it stays alive. -/
theorem C1_kernel_rule_witness : (stepGrid3 [1] 1 26 26 27 27).getD 0 0 = 1 := by
  have h := (C1_kernel_rule [1] [1] 1 1 1 1 1 26 26 27 27 0 0 0 0 0 0 0
    (by decide) (by decide) (by decide) (by decide) (by decide) (by decide)
    (by decide)).1.1 (by decide)
  exact h.mpr (by decide)

/-- C2: both kernels' neighbor sums range over exactly the `3^D - 1` distinct
non-zero offset vectors of `{-1,0,1}^D`, reading the input buffer at the
per-axis toroidally wrapped coordinate `(coord + offset + size) mod size`
(the kernels' only cell reads are from the input buffer, which is the sole
buffer argument of `countNeighbors`/`countNeighbors4`). -/
theorem C2_neighbor_enumeration (cells cells4 : List Nat) (s : Nat)
    (x y z w : Nat) (hs : 0 < s) :
    countNeighbors cells s (x : Int) (y : Int) (z : Int) =
      specNeighborSum3 cells s (x : Int) (y : Int) (z : Int) ∧
    neighborOffsets3.length = 3 ^ 3 - 1 ∧
    neighborOffsets3.Nodup ∧
    (∀ o ∈ neighborOffsets3,
      o ≠ (0, 0, 0) ∧ o.1 ∈ loopVals ∧ o.2.1 ∈ loopVals ∧ o.2.2 ∈ loopVals) ∧
    countNeighbors4 cells4 s s s s (x : Int) (y : Int) (z : Int) (w : Int) =
      specNeighborSum4 cells4 s (x : Int) (y : Int) (z : Int) (w : Int) ∧
    neighborOffsets4.length = 3 ^ 4 - 1 ∧
    neighborOffsets4.Nodup ∧
    (∀ o ∈ neighborOffsets4,
      o ≠ (0, 0, 0, 0) ∧ o.1 ∈ loopVals ∧ o.2.1 ∈ loopVals ∧
        o.2.2.1 ∈ loopVals ∧ o.2.2.2 ∈ loopVals) := by
  exact ⟨countNeighborsEqSpec cells s hs x y z, by decide, by decide, by decide,
    countNeighbors4EqSpec cells4 s hs x y z w, by decide, by decide, by decide⟩

/-- Witness for C2 at a concrete 2³/2⁴ lattice. -/
theorem C2_neighbor_enumeration_witness :
    countNeighbors [1, 0, 0, 1, 1, 0, 0, 1] 2 1 0 1 =
      specNeighborSum3 [1, 0, 0, 1, 1, 0, 0, 1] 2 1 0 1 :=
  (C2_neighbor_enumeration [1, 0, 0, 1, 1, 0, 0, 1] [1] 2 1 0 1 0 (by decide)).1

/-- C10 (implicit): for arbitrary input buffer contents — even cell values
other than 0/1 — every cell either kernel writes is exactly `0` or `1`, so
buffers valued in `{0,1}` form an invariant preserved by step; and once a
buffer is so valued (from the second generation onward) every neighbor sum
is bounded by `3^D - 1`. -/
theorem C10_output_binary (cellsAny cells4Any cells cells4 : List Nat)
    (s sx sy sz sw a b c d : Nat) (x y z p q r u : Int)
    (h1 : ∀ v ∈ cells, v ≤ 1) (h4 : ∀ v ∈ cells4, v ≤ 1) :
    (∀ v ∈ stepGrid3 cellsAny s a b c d, v = 0 ∨ v = 1) ∧
    (∀ v ∈ stepGrid4 cells4Any sx sy sz sw a b c d, v = 0 ∨ v = 1) ∧
    countNeighbors cells s x y z ≤ 3 ^ 3 - 1 ∧
    countNeighbors4 cells4 sx sy sz sw p q r u ≤ 3 ^ 4 - 1 := by
  refine ⟨stepGrid3Binary cellsAny s a b c d,
    stepGrid4Binary cells4Any sx sy sz sw a b c d, ?_, ?_⟩
  · have := countNeighborsLe cells h1 s x y z
    omega
  · have := countNeighbors4Le cells4 h4 sx sy sz sw p q r u
    omega

/-- Witness for C10: a buffer holding the non-binary values 7 and 3 still
steps to a binary buffer. -/
theorem C10_output_binary_witness :
    (stepGrid3 [7, 3] 1 2 3 3 3).all (fun v => v == 0 || v == 1) = true := by
  have h := (C10_output_binary [7, 3] [1] [1, 0] [1] 1 1 1 1 1 2 3 3 3 0 0 0 0 0 0 0
    (by decide) (by decide)).1
  rw [List.all_eq_true]
  intro v hv
  rcases h v hv with h0 | h1
  · simp [h0]
  · simp [h1]

/-- C7: with `birthMin > 0` a lattice seeded all-dead stays all-dead under
any number of `step()` calls, for both engines; with `birthMin = 0` this
need not hold (a dead cell with 0 neighbors then meets the birth
condition). -/
theorem C7_dead_stays_dead (e : Engine3) (f : Engine4) (k : Nat)
    (hb3 : 0 < e.rules.birthMin) (hb4 : 0 < f.birthMin)
    (h3 : ∀ v ∈ getCells3 e, v = 0)
    (hA : ∀ v ∈ f.bufferA, v = 0) (hB : ∀ v ∈ f.bufferB, v = 0) :
    (∀ v ∈ getCells3 (step3^[k] e), v = 0) ∧
    (∀ v ∈ getState4 (step4^[k] f), v = 0) ∧
    (∃ (cells : List Nat) (s a b d : Nat), (∀ v ∈ cells, v = 0) ∧
      ¬ ∀ v ∈ stepGrid3 cells s a b 0 d, v = 0) := by
  refine ⟨step3IterZero k e hb3 h3, ?_, ?_⟩
  · obtain ⟨hA2, hB2⟩ := step4IterZero k f hb4 hA hB
    unfold getState4
    split
    · exact hB2
    · exact hA2
  · exact ⟨[0], 1, 2, 3, 3, by decide, by decide⟩

/-- Witness for C7: two steps from the all-dead 1³ lattice stay all-dead. -/
theorem C7_dead_stays_dead_witness :
    (getCells3 (step3^[2] deadEngine3)).all (fun v => v == 0) = true := by
  have h := (C7_dead_stays_dead deadEngine3 deadEngine4 2 (by decide) (by decide)
    (by decide) (by decide) (by decide)).1
  rw [List.all_eq_true]
  intro v hv
  simp [h v hv]

theorem countNeighborsSizeOne (cells : List Nat) (x y z : Int) :
    countNeighbors cells 1 x y z = 26 * cells.getD 0 0 := by
  simp [countNeighbors, loopVals, getCell, Int.tmod_one]
  omega

set_option maxRecDepth 10000 in
theorem countNeighbors4SizeOne (cells : List Nat) (x y z w : Int) :
    countNeighbors4 cells 1 1 1 1 x y z w = 80 * cells.getD 0 0 := by
  simp [countNeighbors4, loopVals, getCell4, coordsToIndex4, Int.tmod_one]
  omega

/-- C8: for `size = 1` a step is total (output of one cell, no failure), and
the lone cell's neighbor sum is `(3^D - 1) * state`, because every wrapped
neighbor coordinate resolves to the cell itself. -/
theorem C8_size_one (cells cells4 : List Nat) (x y z w : Int) (a b c d : Nat) :
    countNeighbors cells 1 x y z = (3 ^ 3 - 1) * cells.getD 0 0 ∧
    countNeighbors4 cells4 1 1 1 1 x y z w = (3 ^ 4 - 1) * cells4.getD 0 0 ∧
    (stepGrid3 cells 1 a b c d).length = 1 ∧
    (stepGrid4 cells4 1 1 1 1 a b c d).length = 1 := by
  refine ⟨?_, ?_, ?_, ?_⟩
  · rw [countNeighborsSizeOne]
    norm_num
  · rw [countNeighbors4SizeOne]
    norm_num
  · rw [stepGrid3, length_map_range]
  · rw [stepGrid4, length_map_range]

/-- Cell-for-cell agreement of the extracted slice with the read-back 4D
state, for general extents. -/
theorem slice4At (e : Engine4) (x y z w : Nat)
    (hx : x < e.sx) (hy : y < e.sy) (hz : z < e.sz) :
    (get3DSliceAt e (w : Int)).length = e.sx * e.sy * e.sz ∧
    (get3DSliceAt e (w : Int)).getD (x + y * e.sx + z * (e.sx * e.sy)) 0 =
      (getState4 e).getD
        (x + y * e.sx + z * (e.sx * e.sy) + w * (e.sx * e.sy * e.sz)) 0 := by
  obtain ⟨m1, m2, m3, hlt⟩ := decode3g e.sx e.sy e.sz x y z hx hy hz
  constructor
  · rw [get3DSliceAt]
    exact length_map_range _ _
  · rw [get3DSliceAt, getD_map_range _ _ _ hlt]
    simp only [m1, m2, m3, readU32]
    have hcast : ((x : Int) + (y : Int) * (e.sx : Int) + (z : Int) * ((e.sx : Int) * (e.sy : Int))
        + (w : Int) * ((e.sx : Int) * (e.sy : Int) * (e.sz : Int)))
        = ((x + y * e.sx + z * (e.sx * e.sy) + w * (e.sx * e.sy * e.sz) : Nat) : Int) := by
      push_cast
      ring
    rw [hcast, if_pos (by positivity), Int.toNat_natCast]

/-- C5: for a hypercubic 4D lattice of per-axis extent `s` and every
`w < s`, the slice is a `s³`-cell array with
`slice[x + y*s + z*s²] = state4D[x + y*s + z*s² + w*s³]` for all in-range
`(x,y,z)`, i.e. `slice[x,y,z] = lattice4D[x,y,z,w]`. -/
theorem C5_slice_projection (e : Engine4) (s x y z w : Nat)
    (hsx : e.sx = s) (hsy : e.sy = s) (hsz : e.sz = s) (hsw : e.sw = s)
    (hx : x < s) (hy : y < s) (hz : z < s) (hw : w < s) :
    (get3DSliceAt e (w : Int)).length = s * s * s ∧
    (get3DSliceAt e (w : Int)).getD (x + y * s + z * (s * s)) 0 =
      (getState4 e).getD (x + y * s + z * (s * s) + w * (s * s * s)) 0 := by
  have h := slice4At e x y z w (by omega) (by omega) (by omega)
  rw [hsx, hsy, hsz] at h
  exact h

/-- A 2⁴ engine whose readable state holds a single live cell at
`(0,0,1,1)` (linear index 12). -/
def sliceEngine4 : Engine4 :=
  { sx := 2, sy := 2, sz := 2, sw := 2, surviveMin := 7, surviveMax := 10,
    birthMin := 6, birthMax := 9,
    bufferA := List.replicate 16 0,
    bufferB := [0, 0, 0, 0, 0, 0, 0, 0, 0, 0, 0, 0, 1, 0, 0, 0],
    currentIsA := true, currentWSlice := 0 }

/-- Witness for C5: at `w = 1` the slice of `sliceEngine4` exposes the live
cell `(0,0,1)` of that hyperplane. -/
theorem C5_slice_projection_witness :
    (get3DSliceAt sliceEngine4 1).getD 4 0 = (getState4 sliceEngine4).getD 12 0 :=
  (C5_slice_projection sliceEngine4 2 0 0 1 1 (by decide) (by decide) (by decide)
    (by decide) (by decide) (by decide) (by decide) (by decide)).2

/-- C6: seeding with an array whose length differs from `size³` fails with
the size-mismatch error, thrown before the buffer write, so the engine state
(buffers, current tag, generation counter) is unchanged. -/
theorem C6_seed_size_mismatch (e : Engine3) (cells : List Nat)
    (h : cells.length ≠ e.totalCells) :
    seed3 e cells = Except.error "Cell array size mismatch" ∧
    seed3Run e cells = e := by
  constructor
  · rw [seed3, if_pos h]
  · rw [seed3Run, seed3, if_pos h]

/-- Witness for C6: seeding the 1³ engine with 2 cells is rejected and
leaves the engine untouched. -/
theorem C6_seed_size_mismatch_witness : seed3Run deadEngine3 [1, 1] = deadEngine3 :=
  (C6_seed_size_mismatch deadEngine3 [1, 1] (by decide)).2

/-- A 1⁴ engine whose readable state (`getState4`) holds a live cell. -/
def badSliceEngine4 : Engine4 :=
  { sx := 1, sy := 1, sz := 1, sw := 1, surviveMin := 7, surviveMax := 10,
    birthMin := 6, birthMax := 9, bufferA := [0], bufferB := [1],
    currentIsA := true, currentWSlice := 0 }

/-- Counterexample to C9: on a 1⁴ lattice whose single cell is alive,
`get3DSlice` at the out-of-range explicit index `w = 1` performs no
clamping — the out-of-bounds read yields the all-zero slice `[0]`, which
differs from `[1]`, the slice at the nearest in-range index `0`. -/
theorem C9_counterexample :
    get3DSliceAt badSliceEngine4 1 = [0] ∧
    get3DSliceAt badSliceEngine4 0 = [1] ∧
    get3DSliceAt badSliceEngine4 1 ≠ get3DSliceAt badSliceEngine4 0 := by
  decide

/-- C9 as amended: no slice request raises an error, and the `setWSlice`
path clamps: `setWSlice(w)` stores `max(0, min(w, size-1))`, a value in
`[0, size-1]`, and a subsequent no-argument `get3DSlice()` extracts the
slice at that clamped index; but `get3DSlice` with an explicit out-of-range
`w` does not clamp (see the counterexample). -/
theorem C9_clamp_amended (e : Engine4) (w : Int) (hs : 0 < e.sw) :
    ((getWSlice4 (setWSlice4 e w) : Int) = max 0 (min w ((e.sw : Int) - 1))) ∧
    getWSlice4 (setWSlice4 e w) < e.sw ∧
    get3DSliceStored (setWSlice4 e w) =
      get3DSliceAt e (max 0 (min w ((e.sw : Int) - 1))) := by
  have hnb : (0 : Int) ≤ max 0 (min w ((e.sw : Int) - 1)) := le_max_left 0 _
  have hub : max 0 (min w ((e.sw : Int) - 1)) ≤ (e.sw : Int) - 1 := by
    apply max_le
    · omega
    · exact min_le_right _ _
  refine ⟨?_, ?_, ?_⟩
  · simp only [setWSlice4, getWSlice4]
    exact Int.toNat_of_nonneg hnb
  · simp only [setWSlice4, getWSlice4]
    omega
  · have he : get3DSliceStored (setWSlice4 e w) =
        get3DSliceAt e (((max 0 (min w ((e.sw : Int) - 1))).toNat : Int)) := rfl
    rw [he, Int.toNat_of_nonneg hnb]

/-- Witness for the amended C9: `setWSlice 7` on a `size = 1` axis stores an
in-range index. -/
theorem C9_clamp_amended_witness :
    getWSlice4 (setWSlice4 badSliceEngine4 7) < badSliceEngine4.sw :=
  (C9_clamp_amended badSliceEngine4 7 (by decide)).2.1

/-- C3 at the failing input: the 3D engine round-trips
(`getCells` after `seed([1])` returns `[1]`), but the 4D engine does not:
after `reset([1])` the seeded data is in `bufferA` and `currentBuffer` is
`'A'`, yet `getState` reads `currentBuffer === 'A' ? bufferB : bufferA`,
returning the zero-filled `bufferB` instead of the seeded cells. -/
theorem C3_roundtrip_check :
    (seed3 deadEngine3 [1]).isOk = true ∧
    getCells3 (seed3Run deadEngine3 [1]) = [1] ∧
    getState4 (reset4 deadEngine4 [1]) = [0] ∧
    getState4 (reset4 deadEngine4 [1]) ≠ [1] := by
  decide

/-- C4 at the failing input: the 3D engine's counter behaves exactly as
claimed (0 after seed, 5 after five steps, 0 after re-seed, untouched by
`updateRules`); the 4D engine's `step` only rewrites the output buffer and
flips the `currentBuffer` tag — its state carries no generation counter at
all (the `Engine4` record mirrors the class's complete field list). -/
theorem C4_generation_check :
    getGeneration3 (seed3Run deadEngine3 [1]) = 0 ∧
    getGeneration3 (step3^[5] (seed3Run deadEngine3 [1])) = 5 ∧
    getGeneration3 (seed3Run (step3^[5] (seed3Run deadEngine3 [1])) [0]) = 0 ∧
    getGeneration3 (updateRules3 (step3^[5] (seed3Run deadEngine3 [1])) ⟨1, 2, 3, 4⟩) = 5 ∧
    step4 deadEngine4 =
      { deadEngine4 with
          bufferB := stepGrid4 deadEngine4.bufferA 1 1 1 1 7 10 6 9,
          currentIsA := false } := by
  decide

end Laiph
